import Mathlib

/-!
# Verification of the FacebookSMM bot (src/facebook.py)

A shallow embedding of the bot's record store, gateway wrappers and the
monitoring loop, together with proofs of the specified properties.

Modelling conventions:
* The flat files (`processed_comments.txt`, `posted_posts.txt`), the Excel
  statistics sheet and the action log are gathered into a `FileState`.
  A text file is the list of its lines (each line stored without the
  trailing newline that the Python code appends on write).
* Network calls are parameterised by their outcome: an `HttpResult`
  carries either the parsed successful payload, a non-200 status with the
  response text, or the message of a raised exception.  The Python
  functions are embedded as pure functions of those outcomes.
* The monitoring loop `monitor_posts_loop` is embedded one cycle at a
  time (`monitor_cycle`), a run being a list of cycles; every gateway
  interaction of a cycle is drawn from a `CycleOracle`.  Besides the file
  state, a cycle produces the trace of engagement actions (`Action.like`,
  `Action.reply`) it issued, so that at-most-once properties can be
  stated as counts over the trace.
-/

namespace FacebookSMM

/-- Environment configuration: `FACEBOOK_PAGE_ACCESS_TOKEN` and
`FACEBOOK_PAGE_ID` as read by `os.getenv` (absent = `none`). -/
structure Config where
  token : Option String
  pageId : Option String
deriving DecidableEq

/-- Python truthiness of an optional string: `None` and `""` are falsy. -/
def optTruthy : Option String → Bool
  | none => false
  | some s => s ≠ ""

/-- One row of the `post_stats.xlsx` sheet: columns
`post_id, content, likes, comments, shares, last_update`. -/
structure StatsRow where
  post_id : String
  content : Option String
  likes : Nat
  comments : Nat
  shares : Nat
  last_update : String
deriving DecidableEq

/-- The persistent state of the bot: the two id files, the statistics
sheet and the action log (`log_facebook.txt`). -/
structure FileState where
  processedFile : List String
  postedFile : List String
  stats : List StatsRow
  log : List (String × String)
deriving DecidableEq

/-- Embeds `log_action`: append a timestamped line to `log_facebook.txt`
(the timestamp is not modelled). -/
def log_action (action info : String) (fs : FileState) : FileState :=
  { fs with log := fs.log ++ [(action, info)] }

/-- Python's `str.strip()`: drop whitespace from both ends.  (Defined on
the character list so that it evaluates by kernel reduction.) -/
def pyStrip (s : String) : String :=
  ⟨((s.data.dropWhile Char.isWhitespace).reverse.dropWhile Char.isWhitespace).reverse⟩

/-- Embeds `load_processed_comments`: read `processed_comments.txt`, strip each
line, skip empties, collect into a set (represented as a deduplicated
list). -/
def load_processed_comments (fs : FileState) : List String :=
  ((fs.processedFile.map pyStrip).filter (fun s => s ≠ "")).dedup

/-- Embeds `save_processed_comment`: append the comment id to
`processed_comments.txt` (unconditionally). -/
def save_processed_comment (comment_id : String) (fs : FileState) : FileState :=
  { fs with processedFile := fs.processedFile ++ [comment_id] }

/-- Embeds `load_posted_posts`: read `posted_posts.txt`, strip each line, skip
empties, keep list order. -/
def load_posted_posts (fs : FileState) : List String :=
  (fs.postedFile.map pyStrip).filter (fun s => s ≠ "")

/-- Embeds `save_posted_post`: append the post id to `posted_posts.txt` unless
it is already among the loaded posts. -/
def save_posted_post (post_id : String) (fs : FileState) : FileState :=
  if post_id ∈ load_posted_posts fs then fs
  else { fs with postedFile := fs.postedFile ++ [post_id] }

/-- The row written for a post that has no row yet: the `content` cell is
filled only when the passed `content` is truthy (`if content:`). -/
def newRow (post_id : String) (likes comments shares : Nat)
    (content : Option String) (now : String) : StatsRow :=
  { post_id := post_id
    content := if optTruthy content then content else none
    likes := likes
    comments := comments
    shares := shares
    last_update := now }

/-- Overwriting columns C–F of an existing row: `post_id` and `content`
are kept. -/
def updateRow (r : StatsRow) (likes comments shares : Nat) (now : String) : StatsRow :=
  { r with likes := likes, comments := comments, shares := shares, last_update := now }

/-- The sheet scan of `update_post_stats`: find the first row whose
column A equals `post_id` and overwrite its counters, otherwise append a
fresh row at the bottom. -/
def upsertStats : List StatsRow → String → Nat → Nat → Nat → Option String → String → List StatsRow
  | [], pid, l, c, s, content, now => [newRow pid l c s content now]
  | r :: rs, pid, l, c, s, content, now =>
      if r.post_id = pid then updateRow r l c s now :: rs
      else r :: upsertStats rs pid l c s content now

/-- Embeds `update_post_stats`: upsert the row of `post_id` in the Excel sheet;
`now` stands for `datetime.now().strftime(...)`. -/
def update_post_stats (post_id : String) (likes comments shares : Nat)
    (content : Option String) (now : String) (fs : FileState) : FileState :=
  { fs with stats := upsertStats fs.stats post_id likes comments shares content now }

/-- Outcome of one `requests` call: parsed 200 payload, non-200 status
with response text, or a raised exception's message. -/
inductive HttpResult (α : Type) where
  | ok : α → HttpResult α
  | httpError : Nat → String → HttpResult α
  | exn : String → HttpResult α
deriving DecidableEq

/-- Embeds `post_to_facebook`: publish `message`.  `resp` is the outcome of the
`POST .../feed` request, its `ok` payload being `r.json().get("id", "")`.
Returns the result string (new post id or error text), the list of HTTP
requests actually issued, and the new file state. -/
def post_to_facebook (cfg : Config) (resp : HttpResult String)
    (message now : String) (fs : FileState) : String × List String × FileState :=
  if !optTruthy cfg.token || !optTruthy cfg.pageId then
    let error_msg := "Нет токена или ID страницы!"
    (error_msg, [], log_action "post_to_facebook" error_msg fs)
  else
    let url := "https://graph.facebook.com/" ++ cfg.pageId.getD "" ++ "/feed"
    match resp with
    | .ok new_post_id =>
        let msg := "Пост опубликован! ID: " ++ new_post_id
        let fs1 := log_action "post_to_facebook" msg fs
        let fs2 := save_posted_post new_post_id fs1
        let fs3 := update_post_stats new_post_id 0 0 0 (some message) now fs2
        (new_post_id, [url], fs3)
    | .httpError code text =>
        let err := "Ошибка постинга: " ++ toString code ++ " " ++ text
        (err, [url], log_action "post_to_facebook" err fs)
    | .exn e =>
        let err := "Исключение: " ++ e
        (err, [url], log_action "post_to_facebook" err fs)

/-- Embeds `get_post_insights`: the three independent sub-queries.  Each `ok`
payload is the optional count found in the parsed JSON
(`summary.total_count` resp. `shares.count`), `none` when the field is
absent (the code then defaults to `0` via `.get`).  Returns the triple
`(likes, comments, shares)`, the list of requests issued, and the state. -/
def get_post_insights (cfg : Config)
    (r_likes r_comments r_shares : HttpResult (Option Nat))
    (post_id : String) (fs : FileState) :
    (Nat × Nat × Nat) × List String × FileState :=
  if !optTruthy cfg.token then ((0, 0, 0), [], fs)
  else
    let url_likes := "https://graph.facebook.com/" ++ post_id ++ "/likes"
    let (likes_count, fs1) :=
      match r_likes with
      | .ok v => (v.getD 0, fs)
      | .httpError code text =>
          (0, log_action "get_post_insights"
                ("Ошибка likes " ++ post_id ++ ": " ++ toString code ++ " " ++ text) fs)
      | .exn e =>
          (0, log_action "get_post_insights" ("Исключение likes " ++ post_id ++ ": " ++ e) fs)
    let url_comments := "https://graph.facebook.com/" ++ post_id ++ "/comments"
    let (comments_count, fs2) :=
      match r_comments with
      | .ok v => (v.getD 0, fs1)
      | .httpError code text =>
          (0, log_action "get_post_insights"
                ("Ошибка comments " ++ post_id ++ ": " ++ toString code ++ " " ++ text) fs1)
      | .exn e =>
          (0, log_action "get_post_insights" ("Исключение comments " ++ post_id ++ ": " ++ e) fs1)
    let url_shares := "https://graph.facebook.com/" ++ post_id
    let (shares_count, fs3) :=
      match r_shares with
      | .ok v => (v.getD 0, fs2)
      | .httpError code text =>
          (0, log_action "get_post_insights"
                ("Ошибка shares " ++ post_id ++ ": " ++ toString code ++ " " ++ text) fs2)
      | .exn e =>
          (0, log_action "get_post_insights" ("Исключение shares " ++ post_id ++ ": " ++ e) fs2)
    ((likes_count, comments_count, shares_count), [url_likes, url_comments, url_shares], fs3)

/-- A comment as parsed by `get_post_comments` from the JSON payload:
`(id, message, from.name)` (with the defaults `""` and `"NoName"` already
applied). -/
structure Comment where
  id : String
  text : String
  author : String
deriving DecidableEq

/-- Embeds `get_post_comments`: on a 200 response return the parsed comment
list; on a non-200 status or an exception log the failure and return the
empty list. -/
def get_post_comments (resp : HttpResult (List Comment)) (fs : FileState) :
    List Comment × FileState :=
  match resp with
  | .ok cs => (cs, fs)
  | .httpError code text =>
      ([], log_action "get_post_comments" ("Ошибка " ++ toString code ++ " " ++ text) fs)
  | .exn e => ([], log_action "get_post_comments" ("Исключение: " ++ e) fs)

/-- Embeds `like_comment`: issue the like request and log the outcome; never
raises, returns nothing. -/
def like_comment (comment_id : String) (resp : HttpResult Unit) (fs : FileState) : FileState :=
  match resp with
  | .ok _ => log_action "like_comment" ("Лайк на комментарий " ++ comment_id) fs
  | .httpError code text =>
      log_action "like_comment" ("Ошибка " ++ comment_id ++ ": " ++ toString code ++ " " ++ text) fs
  | .exn e => log_action "like_comment" ("Исключение " ++ comment_id ++ ": " ++ e) fs

/-- Embeds `reply_to_comment`: issue the reply request (carrying `_text` as
payload) and log the outcome; never raises, returns nothing. -/
def reply_to_comment (comment_id : String) (_text : String) (resp : HttpResult Unit)
    (fs : FileState) : FileState :=
  match resp with
  | .ok _ => log_action "reply_to_comment" ("Ответ на комментарий " ++ comment_id) fs
  | .httpError code t =>
      log_action "reply_to_comment" ("Ошибка " ++ comment_id ++ ": " ++ toString code ++ " " ++ t) fs
  | .exn e => log_action "reply_to_comment" ("Исключение " ++ comment_id ++ ": " ++ e) fs

/-- Embeds `REPLY_TEMPLATE.format(author=author, comment=comment)`. -/
def reply_template (author comment : String) : String :=
  "Привет, " ++ author ++ "!\nСпасибо за комментарий, " ++ comment
    ++ "\nМы ценим вашу активность!\n"

/-- One cycle's view of the remote gateway: for every post id, the
`(likes, comments, shares)` triple produced by `get_post_insights`, the
outcome of the comment fetch, and for every comment id the outcomes of
the like and reply requests. -/
structure CycleOracle where
  insights : String → Nat × Nat × Nat
  commentsResp : String → HttpResult (List Comment)
  likeResp : String → HttpResult Unit
  replyResp : String → HttpResult Unit

/-- The comment list a cycle obtains for `pid` (empty on gateway
failure), i.e. the first component of `get_post_comments`. -/
def fetched_comments (oc : CycleOracle) (pid : String) : List Comment :=
  match oc.commentsResp pid with
  | .ok cs => cs
  | _ => []

/-- An engagement side effect issued by the monitoring loop. -/
inductive Action where
  | like : String → Action
  | reply : String → String → Action
deriving DecidableEq

/-- The body of `if cid not in processed_ids`: like, templated reply,
then append to `processed_comments.txt`. -/
def engage_comment (oc : CycleOracle) (c : Comment) (fs : FileState) :
    FileState × List Action :=
  let fs1 := like_comment c.id (oc.likeResp c.id) fs
  let reply_text := reply_template c.author c.text
  let fs2 := reply_to_comment c.id reply_text (oc.replyResp c.id) fs1
  let fs3 := save_processed_comment c.id fs2
  (fs3, [Action.like c.id, Action.reply c.id reply_text])

/-- The `for (cid, ctext, cauthor) in comment_list` loop of one post:
`pset` is the in-memory `processed_ids` snapshot, which is NOT updated
inside the cycle. -/
def process_comments (oc : CycleOracle) :
    List Comment → List String → FileState → FileState × List Action
  | [], _, fs => (fs, [])
  | c :: rest, pset, fs =>
      if c.id ∈ pset then process_comments oc rest pset fs
      else
        let r1 := engage_comment oc c fs
        let r2 := process_comments oc rest pset r1.1
        (r2.1, r1.2 ++ r2.2)

/-- The per-post body of the monitoring loop: refresh the statistics row
(content omitted), fetch up to 50 comments, process the new ones. -/
def process_post (oc : CycleOracle) (now pid : String) (pset : List String)
    (fs : FileState) : FileState × List Action :=
  let t := oc.insights pid
  let fs1 := update_post_stats pid t.1 t.2.1 t.2.2 none now fs
  let g := get_post_comments (oc.commentsResp pid) fs1
  process_comments oc g.1 pset g.2

/-- The `for post_id in post_ids` loop with a fixed `processed_ids`
snapshot `pset`. -/
def process_posts (oc : CycleOracle) (now : String) :
    List String → List String → FileState → FileState × List Action
  | [], _, fs => (fs, [])
  | pid :: rest, pset, fs =>
      let r1 := process_post oc now pid pset fs
      let r2 := process_posts oc now rest pset r1.1
      (r2.1, r1.2 ++ r2.2)

/-- One iteration of the `while True` body of `monitor_posts_loop`:
reload the post list and the processed-comment set, then walk the
posts. -/
def monitor_cycle (oc : CycleOracle) (now : String) (fs : FileState) :
    FileState × List Action :=
  let post_ids := load_posted_posts fs
  let processed_ids := load_processed_comments fs
  process_posts oc now post_ids processed_ids fs

/-- A finite prefix of the infinite monitoring loop: one oracle per
cycle, traces concatenated in order. -/
def monitor_run (now : String) : List CycleOracle → FileState → FileState × List Action
  | [], fs => (fs, [])
  | oc :: rest, fs =>
      let r1 := monitor_cycle oc now fs
      let r2 := monitor_run now rest r1.1
      (r2.1, r1.2 ++ r2.2)

/-- Number of `likeComment` calls for `cid` in a trace. -/
def likeCount (tr : List Action) (cid : String) : Nat :=
  tr.countP fun a => match a with
    | .like c => c == cid
    | _ => false

/-- Number of `replyToComment` calls for `cid` in a trace. -/
def replyCount (tr : List Action) (cid : String) : Nat :=
  tr.countP fun a => match a with
    | .reply c _ => c == cid
    | _ => false

/-- A predicate `p` on actions counts per engaged comment id `cid`
exactly once: satisfied by "is a like of `cid`" and by "is a reply to
`cid`". -/
def CountsOne (p : Action → Bool) (cid : String) : Prop :=
  ∀ (a t : String),
    ((if p (Action.like a) then 1 else 0) + (if p (Action.reply a t) then 1 else 0) : Nat)
      = if a = cid then 1 else 0

/-- Number of occurrences of the comment id `cid` in a fetched list. -/
def commentOcc (cl : List Comment) (cid : String) : Nat :=
  cl.countP fun c => c.id == cid

/-- Total number of occurrences of `cid` among all comments fetched in a
cycle over the posts `pids`. -/
def cycleOccurrences (oc : CycleOracle) (pids : List String) (cid : String) : Nat :=
  (pids.map fun pid => commentOcc (fetched_comments oc pid) cid).sum

/-- The ids of the comments of one fetched list that the loop engages:
those whose id is not in the `processed_ids` snapshot. -/
def engagedIds (cl : List Comment) (pset : List String) : List String :=
  (cl.filter fun c => decide (c.id ∉ pset)).map Comment.id

/-- All comment ids engaged during one cycle, in processing order. -/
def cycleEngagedIds (oc : CycleOracle) (pids pset : List String) : List String :=
  (pids.map fun pid => engagedIds (fetched_comments oc pid) pset).flatten

/-- The counter value a single sub-query of `get_post_insights`
contributes: the count found in a 200 response (default 0 when the field
is missing), 0 on any failure. -/
def sub_query_value : HttpResult (Option Nat) → Nat
  | .ok v => v.getD 0
  | .httpError _ _ => 0
  | .exn _ => 0

/-- Python `str.isdigit()` (restricted to ASCII digits): nonempty and
all characters are digits. -/
def str_isdigit (s : String) : Bool :=
  !s.data.isEmpty && s.data.all Char.isDigit

/-- The success test of `console_loop` on the string returned by
`post_to_facebook`: `"_" in result or result.isdigit()`. -/
def console_success (result : String) : Bool :=
  result.data.contains '_' || str_isdigit result

/-! ### Example fixtures used by counterexamples and witnesses -/

/-- The state of a fresh installation: all files empty. -/
def emptyFS : FileState := ⟨[], [], [], []⟩

/-- A comment by Ann, id `c1`. -/
def exComment : Comment := ⟨"c1", "Nice!", "Ann"⟩

/-- A second fetched copy of the comment id `c1` (e.g. the same comment
surfacing in another post's fetched list). -/
def exCommentDup : Comment := ⟨"c1", "Wow", "Bob"⟩

/-- A cycle in which the comment id `c1` appears in the fetched lists of
both tracked posts; all engagement requests succeed. -/
def exOracleDup : CycleOracle where
  insights := fun _ => (0, 0, 0)
  commentsResp := fun pid =>
    if pid = "P1" then .ok [exComment]
    else if pid = "P2" then .ok [exCommentDup]
    else .ok []
  likeResp := fun _ => .ok ()
  replyResp := fun _ => .ok ()

/-- Two tracked posts, nothing processed yet. -/
def exFSDup : FileState := ⟨[], ["P1", "P2"], [], []⟩

/-- A cycle fetching the single comment `c1` on post `P1` whose like and
reply requests both fail. -/
def exOracleFail : CycleOracle where
  insights := fun _ => (7, 1, 0)
  commentsResp := fun pid => if pid = "P1" then .ok [exComment] else .ok []
  likeResp := fun _ => .httpError 400 "rate limited"
  replyResp := fun _ => .exn "timeout"

/-- One tracked post, nothing processed yet. -/
def exFSOne : FileState := ⟨[], ["P1"], [], []⟩

/-! ### Small facts about the state components each operation touches -/

@[simp] theorem log_action_processedFile (a i : String) (fs : FileState) :
    (log_action a i fs).processedFile = fs.processedFile := rfl

@[simp] theorem log_action_postedFile (a i : String) (fs : FileState) :
    (log_action a i fs).postedFile = fs.postedFile := rfl

@[simp] theorem log_action_stats (a i : String) (fs : FileState) :
    (log_action a i fs).stats = fs.stats := rfl

@[simp] theorem like_comment_processedFile (cid : String) (r : HttpResult Unit) (fs : FileState) :
    (like_comment cid r fs).processedFile = fs.processedFile := by
  cases r <;> rfl

@[simp] theorem like_comment_postedFile (cid : String) (r : HttpResult Unit) (fs : FileState) :
    (like_comment cid r fs).postedFile = fs.postedFile := by
  cases r <;> rfl

@[simp] theorem like_comment_stats (cid : String) (r : HttpResult Unit) (fs : FileState) :
    (like_comment cid r fs).stats = fs.stats := by
  cases r <;> rfl

@[simp] theorem reply_to_comment_processedFile (cid t : String) (r : HttpResult Unit)
    (fs : FileState) : (reply_to_comment cid t r fs).processedFile = fs.processedFile := by
  cases r <;> rfl

@[simp] theorem reply_to_comment_postedFile (cid t : String) (r : HttpResult Unit)
    (fs : FileState) : (reply_to_comment cid t r fs).postedFile = fs.postedFile := by
  cases r <;> rfl

@[simp] theorem reply_to_comment_stats (cid t : String) (r : HttpResult Unit)
    (fs : FileState) : (reply_to_comment cid t r fs).stats = fs.stats := by
  cases r <;> rfl

@[simp] theorem save_processed_comment_processedFile (cid : String) (fs : FileState) :
    (save_processed_comment cid fs).processedFile = fs.processedFile ++ [cid] := rfl

@[simp] theorem save_processed_comment_postedFile (cid : String) (fs : FileState) :
    (save_processed_comment cid fs).postedFile = fs.postedFile := rfl

@[simp] theorem save_processed_comment_stats (cid : String) (fs : FileState) :
    (save_processed_comment cid fs).stats = fs.stats := rfl

@[simp] theorem update_post_stats_processedFile (pid : String) (l c s : Nat)
    (content : Option String) (now : String) (fs : FileState) :
    (update_post_stats pid l c s content now fs).processedFile = fs.processedFile := rfl

@[simp] theorem update_post_stats_postedFile (pid : String) (l c s : Nat)
    (content : Option String) (now : String) (fs : FileState) :
    (update_post_stats pid l c s content now fs).postedFile = fs.postedFile := rfl

@[simp] theorem save_posted_post_processedFile (pid : String) (fs : FileState) :
    (save_posted_post pid fs).processedFile = fs.processedFile := by
  unfold save_posted_post; split <;> rfl

@[simp] theorem save_posted_post_stats (pid : String) (fs : FileState) :
    (save_posted_post pid fs).stats = fs.stats := by
  unfold save_posted_post; split <;> rfl

@[simp] theorem get_post_comments_snd_processedFile (resp : HttpResult (List Comment))
    (fs : FileState) : (get_post_comments resp fs).2.processedFile = fs.processedFile := by
  cases resp <;> rfl

@[simp] theorem get_post_comments_snd_postedFile (resp : HttpResult (List Comment))
    (fs : FileState) : (get_post_comments resp fs).2.postedFile = fs.postedFile := by
  cases resp <;> rfl

theorem get_post_comments_fst (oc : CycleOracle) (pid : String) (fs : FileState) :
    (get_post_comments (oc.commentsResp pid) fs).1 = fetched_comments oc pid := by
  cases h : oc.commentsResp pid <;> simp [get_post_comments, fetched_comments, h]

theorem engage_comment_processedFile (oc : CycleOracle) (c : Comment) (fs : FileState) :
    (engage_comment oc c fs).1.processedFile = fs.processedFile ++ [c.id] := by
  simp [engage_comment]

theorem engage_comment_postedFile (oc : CycleOracle) (c : Comment) (fs : FileState) :
    (engage_comment oc c fs).1.postedFile = fs.postedFile := by
  simp [engage_comment]

theorem engage_comment_trace (oc : CycleOracle) (c : Comment) (fs : FileState) :
    (engage_comment oc c fs).2
      = [Action.like c.id, Action.reply c.id (reply_template c.author c.text)] := rfl

/-! ### Membership in the loaded id collections -/

theorem mem_load_processed_iff (fs : FileState) (x : String) :
    x ∈ load_processed_comments fs ↔ x ∈ fs.processedFile.map pyStrip ∧ x ≠ "" := by
  simp [load_processed_comments, List.mem_dedup, List.mem_filter]

theorem load_posted_posts_congr (fs fs' : FileState) (h : fs'.postedFile = fs.postedFile) :
    load_posted_posts fs' = load_posted_posts fs := by
  simp [load_posted_posts, h]

/-! ### Which ids a cycle appends to the processed-comment file -/

theorem engagedIds_cons_mem (c : Comment) (cl : List Comment) (pset : List String)
    (h : c.id ∈ pset) : engagedIds (c :: cl) pset = engagedIds cl pset := by
  simp [engagedIds, List.filter_cons, h]

theorem engagedIds_cons_not_mem (c : Comment) (cl : List Comment) (pset : List String)
    (h : c.id ∉ pset) : engagedIds (c :: cl) pset = c.id :: engagedIds cl pset := by
  simp [engagedIds, List.filter_cons, h]

theorem processedFile_process_comments (oc : CycleOracle) (cl : List Comment) :
    ∀ (pset : List String) (fs : FileState),
      (process_comments oc cl pset fs).1.processedFile
        = fs.processedFile ++ engagedIds cl pset := by
  induction cl with
  | nil => intro pset fs; simp [process_comments, engagedIds]
  | cons c rest ih =>
      intro pset fs
      by_cases h : c.id ∈ pset
      · rw [engagedIds_cons_mem c rest pset h]
        simp only [process_comments, if_pos h]
        exact ih pset fs
      · rw [engagedIds_cons_not_mem c rest pset h]
        simp only [process_comments, if_neg h]
        rw [ih pset _, engage_comment_processedFile]
        simp

theorem postedFile_process_comments (oc : CycleOracle) (cl : List Comment) :
    ∀ (pset : List String) (fs : FileState),
      (process_comments oc cl pset fs).1.postedFile = fs.postedFile := by
  induction cl with
  | nil => intro pset fs; simp [process_comments]
  | cons c rest ih =>
      intro pset fs
      by_cases h : c.id ∈ pset
      · simp only [process_comments, if_pos h]; exact ih pset fs
      · simp only [process_comments, if_neg h]
        rw [ih pset _, engage_comment_postedFile]

theorem processedFile_process_post (oc : CycleOracle) (now pid : String)
    (pset : List String) (fs : FileState) :
    (process_post oc now pid pset fs).1.processedFile
      = fs.processedFile ++ engagedIds (fetched_comments oc pid) pset := by
  simp only [process_post]
  rw [processedFile_process_comments, get_post_comments_fst]
  simp

theorem postedFile_process_post (oc : CycleOracle) (now pid : String)
    (pset : List String) (fs : FileState) :
    (process_post oc now pid pset fs).1.postedFile = fs.postedFile := by
  simp only [process_post]
  rw [postedFile_process_comments]
  simp

theorem processedFile_process_posts (oc : CycleOracle) (now : String) (pids : List String) :
    ∀ (pset : List String) (fs : FileState),
      (process_posts oc now pids pset fs).1.processedFile
        = fs.processedFile ++ cycleEngagedIds oc pids pset := by
  induction pids with
  | nil => intro pset fs; simp [process_posts, cycleEngagedIds]
  | cons pid rest ih =>
      intro pset fs
      simp only [process_posts]
      rw [ih, processedFile_process_post]
      simp [cycleEngagedIds, List.append_assoc]

theorem postedFile_process_posts (oc : CycleOracle) (now : String) (pids : List String) :
    ∀ (pset : List String) (fs : FileState),
      (process_posts oc now pids pset fs).1.postedFile = fs.postedFile := by
  induction pids with
  | nil => intro pset fs; simp [process_posts]
  | cons pid rest ih =>
      intro pset fs
      simp only [process_posts]
      rw [ih, postedFile_process_post]

theorem processedFile_monitor_cycle (oc : CycleOracle) (now : String) (fs : FileState) :
    (monitor_cycle oc now fs).1.processedFile
      = fs.processedFile
        ++ cycleEngagedIds oc (load_posted_posts fs) (load_processed_comments fs) := by
  simp [monitor_cycle, processedFile_process_posts]

theorem postedFile_monitor_cycle (oc : CycleOracle) (now : String) (fs : FileState) :
    (monitor_cycle oc now fs).1.postedFile = fs.postedFile := by
  simp [monitor_cycle, postedFile_process_posts]

theorem load_posted_posts_monitor_cycle (oc : CycleOracle) (now : String) (fs : FileState) :
    load_posted_posts (monitor_cycle oc now fs).1 = load_posted_posts fs :=
  load_posted_posts_congr fs _ (postedFile_monitor_cycle oc now fs)

/-! ### Counting engagement actions in a trace -/

theorem countP_pair (p : Action → Bool) (a₁ a₂ : Action) :
    ([a₁, a₂].countP p)
      = ((if p a₁ then 1 else 0) + (if p a₂ then 1 else 0) : Nat) := by
  simp only [List.countP_cons, List.countP_nil]
  by_cases h₁ : p a₁ <;> by_cases h₂ : p a₂ <;> simp [h₁, h₂]

theorem commentOcc_cons (c : Comment) (cl : List Comment) (cid : String) :
    commentOcc (c :: cl) cid
      = commentOcc cl cid + (if c.id = cid then 1 else 0) := by
  simp [commentOcc, List.countP_cons]

theorem countP_process_comments (p : Action → Bool) (cid : String) (hp : CountsOne p cid)
    (oc : CycleOracle) (cl : List Comment) :
    ∀ (pset : List String) (fs : FileState),
      ((process_comments oc cl pset fs).2.countP p)
        = if cid ∈ pset then 0 else commentOcc cl cid := by
  induction cl with
  | nil => intro pset fs; simp [process_comments, commentOcc]
  | cons c rest ih =>
      intro pset fs
      by_cases h : c.id ∈ pset
      · simp only [process_comments, if_pos h]
        rw [ih]
        by_cases hm : cid ∈ pset
        · simp [hm]
        · have hne : c.id ≠ cid := fun he => hm (he ▸ h)
          simp [hm, commentOcc_cons, hne]
      · simp only [process_comments, if_neg h]
        rw [List.countP_append, ih]
        have htr : ((engage_comment oc c fs).2.countP p) = if c.id = cid then 1 else 0 := by
          rw [engage_comment_trace, countP_pair, hp]
        rw [htr]
        by_cases hm : cid ∈ pset
        · have hne : c.id ≠ cid := fun he => h (he ▸ hm)
          simp [hm, hne]
        · by_cases hc : c.id = cid
          · simp only [if_neg hm, commentOcc_cons, if_pos hc]
            omega
          · simp only [if_neg hm, commentOcc_cons, if_neg hc]
            omega

theorem countP_process_post (p : Action → Bool) (cid : String) (hp : CountsOne p cid)
    (oc : CycleOracle) (now pid : String) (pset : List String) (fs : FileState) :
    ((process_post oc now pid pset fs).2.countP p)
      = if cid ∈ pset then 0 else commentOcc (fetched_comments oc pid) cid := by
  simp only [process_post]
  rw [countP_process_comments p cid hp, get_post_comments_fst]

theorem countP_process_posts (p : Action → Bool) (cid : String) (hp : CountsOne p cid)
    (oc : CycleOracle) (now : String) (pids : List String) :
    ∀ (pset : List String) (fs : FileState),
      ((process_posts oc now pids pset fs).2.countP p)
        = if cid ∈ pset then 0
          else (pids.map fun pid => commentOcc (fetched_comments oc pid) cid).sum := by
  induction pids with
  | nil => intro pset fs; simp [process_posts]
  | cons pid rest ih =>
      intro pset fs
      simp only [process_posts]
      rw [List.countP_append, countP_process_post p cid hp, ih]
      by_cases hm : cid ∈ pset
      · simp [hm]
      · simp [hm]

theorem countP_monitor_cycle (p : Action → Bool) (cid : String) (hp : CountsOne p cid)
    (oc : CycleOracle) (now : String) (fs : FileState) :
    ((monitor_cycle oc now fs).2.countP p)
      = if cid ∈ load_processed_comments fs then 0
        else cycleOccurrences oc (load_posted_posts fs) cid := by
  simp only [monitor_cycle, cycleOccurrences]
  exact countP_process_posts p cid hp oc now _ _ fs

/-! ### Membership in the processed set across a cycle -/

theorem mem_engagedIds_iff (cl : List Comment) (pset : List String) (x : String) :
    x ∈ engagedIds cl pset ↔ (∃ c ∈ cl, c.id = x) ∧ x ∉ pset := by
  simp only [engagedIds, List.mem_map, List.mem_filter, decide_eq_true_eq]
  constructor
  · rintro ⟨c, ⟨hc, hnm⟩, rfl⟩
    exact ⟨⟨c, hc, rfl⟩, hnm⟩
  · rintro ⟨⟨c, hc, rfl⟩, hnm⟩
    exact ⟨c, ⟨hc, hnm⟩, rfl⟩

theorem mem_cycleEngagedIds_iff (oc : CycleOracle) (pids pset : List String) (x : String) :
    x ∈ cycleEngagedIds oc pids pset
      ↔ ∃ pid ∈ pids, x ∈ engagedIds (fetched_comments oc pid) pset := by
  simp [cycleEngagedIds, List.mem_flatten]

theorem commentOcc_pos_iff (cl : List Comment) (cid : String) :
    0 < commentOcc cl cid ↔ ∃ c ∈ cl, c.id = cid := by
  simp [commentOcc, List.countP_pos_iff]

theorem cycleOccurrences_pos_iff (oc : CycleOracle) (pids : List String) (cid : String) :
    0 < cycleOccurrences oc pids cid
      ↔ ∃ pid ∈ pids, ∃ c ∈ fetched_comments oc pid, c.id = cid := by
  rw [cycleOccurrences, Nat.pos_iff_ne_zero, Ne, List.sum_eq_zero_iff]
  push_neg
  simp only [List.mem_map]
  constructor
  · rintro ⟨x, ⟨pid, hpid, rfl⟩, hne⟩
    exact ⟨pid, hpid, (commentOcc_pos_iff _ _).1 (Nat.pos_of_ne_zero hne)⟩
  · rintro ⟨pid, hpid, hocc⟩
    exact ⟨commentOcc (fetched_comments oc pid) cid, ⟨pid, hpid, rfl⟩,
      Nat.pos_iff_ne_zero.1 ((commentOcc_pos_iff _ _).2 hocc)⟩

theorem mem_load_processed_monitor_cycle (oc : CycleOracle) (now : String) (fs : FileState)
    (cid : String) (hwf : pyStrip cid = cid) (hne : cid ≠ "")
    (hids : ∀ pid ∈ load_posted_posts fs, ∀ c ∈ fetched_comments oc pid,
      pyStrip c.id = c.id) :
    cid ∈ load_processed_comments (monitor_cycle oc now fs).1
      ↔ cid ∈ load_processed_comments fs
        ∨ 0 < cycleOccurrences oc (load_posted_posts fs) cid := by
  rw [mem_load_processed_iff, processedFile_monitor_cycle, List.map_append, List.mem_append]
  constructor
  · rintro ⟨h | h, -⟩
    · exact Or.inl ((mem_load_processed_iff fs cid).2 ⟨h, hne⟩)
    · right
      obtain ⟨y, hy, hyeq⟩ := List.mem_map.1 h
      obtain ⟨pid, hpid, hyeng⟩ := (mem_cycleEngagedIds_iff oc _ _ y).1 hy
      obtain ⟨⟨c, hc, hcy⟩, -⟩ := (mem_engagedIds_iff _ _ y).1 hyeng
      have hyid : pyStrip y = y := hcy ▸ hids pid hpid c hc
      have hy_cid : y = cid := by rw [← hyeq, hyid]
      rw [← hy_cid]
      exact (cycleOccurrences_pos_iff oc _ y).2 ⟨pid, hpid, c, hc, hcy⟩
  · rintro (h | h)
    · have h' := (mem_load_processed_iff fs cid).1 h
      exact ⟨Or.inl h'.1, h'.2⟩
    · by_cases hmem : cid ∈ load_processed_comments fs
      · have h' := (mem_load_processed_iff fs cid).1 hmem
        exact ⟨Or.inl h'.1, h'.2⟩
      · refine ⟨Or.inr ?_, hne⟩
        obtain ⟨pid, hpid, c, hc, hcid⟩ := (cycleOccurrences_pos_iff oc _ cid).1 h
        refine List.mem_map.2 ⟨cid, ?_, hwf⟩
        refine (mem_cycleEngagedIds_iff oc _ _ cid).2 ⟨pid, hpid, ?_⟩
        exact (mem_engagedIds_iff _ _ cid).2 ⟨⟨c, hc, hcid⟩, hmem⟩

/-! ### Engagement counts over a whole run -/

theorem countP_monitor_run (p : Action → Bool) (cid : String) (hp : CountsOne p cid)
    (now : String) (ocs : List CycleOracle) :
    ∀ (fs : FileState),
      pyStrip cid = cid → cid ≠ "" →
      (∀ oc ∈ ocs, ∀ pid ∈ load_posted_posts fs, ∀ c ∈ fetched_comments oc pid,
        pyStrip c.id = c.id) →
      (∀ oc ∈ ocs, cycleOccurrences oc (load_posted_posts fs) cid ≤ 1) →
      ((monitor_run now ocs fs).2.countP p)
        = if cid ∈ load_processed_comments fs then 0
          else if ocs.any (fun oc =>
              cycleOccurrences oc (load_posted_posts fs) cid ≠ 0) then 1 else 0 := by
  induction ocs with
  | nil => intro fs _ _ _ _; simp [monitor_run]
  | cons oc rest ih =>
      intro fs hwf hne hids honce
      simp only [monitor_run]
      rw [List.countP_append, countP_monitor_cycle p cid hp oc now fs]
      have hpost := load_posted_posts_monitor_cycle oc now fs
      have hmem := mem_load_processed_monitor_cycle oc now fs cid hwf hne
        (hids oc (List.mem_cons_self oc rest))
      have hids1 : ∀ oc' ∈ rest, ∀ pid ∈ load_posted_posts (monitor_cycle oc now fs).1,
          ∀ c ∈ fetched_comments oc' pid, pyStrip c.id = c.id := by
        rw [hpost]
        exact fun oc' h => hids oc' (List.mem_cons_of_mem oc h)
      have honce1 : ∀ oc' ∈ rest,
          cycleOccurrences oc' (load_posted_posts (monitor_cycle oc now fs).1) cid ≤ 1 := by
        rw [hpost]
        exact fun oc' h => honce oc' (List.mem_cons_of_mem oc h)
      rw [ih (monitor_cycle oc now fs).1 hwf hne hids1 honce1, hpost]
      by_cases hA : cid ∈ load_processed_comments fs
      · have hA1 : cid ∈ load_processed_comments (monitor_cycle oc now fs).1 :=
          hmem.2 (Or.inl hA)
        simp [hA, hA1]
      · by_cases hn : cycleOccurrences oc (load_posted_posts fs) cid = 0
        · have hA1 : cid ∉ load_processed_comments (monitor_cycle oc now fs).1 := by
            rw [hmem]
            rintro (h | h)
            · exact hA h
            · omega
          simp [hA, hA1, hn]
        · have h1 : cycleOccurrences oc (load_posted_posts fs) cid = 1 := by
            have := honce oc (List.mem_cons_self oc rest)
            omega
          have hA1 : cid ∈ load_processed_comments (monitor_cycle oc now fs).1 :=
            hmem.2 (Or.inr (by omega))
          simp [hA, hA1, h1, hn]

theorem likeCount_def (tr : List Action) (cid : String) :
    likeCount tr cid
      = tr.countP (fun a => match a with | .like c => c == cid | _ => false) := rfl

theorem replyCount_def (tr : List Action) (cid : String) :
    replyCount tr cid
      = tr.countP (fun a => match a with | .reply c _ => c == cid | _ => false) := rfl

theorem countsOne_like (cid : String) :
    CountsOne (fun a => match a with | .like c => c == cid | _ => false) cid := by
  intro a t
  by_cases h : a = cid <;> simp [h]

theorem countsOne_reply (cid : String) :
    CountsOne (fun a => match a with | .reply c _ => c == cid | _ => false) cid := by
  intro a t
  by_cases h : a = cid <;> simp [h]

/-! ## The claims -/

/-- Claim C1, counterexample to the claim as stated.  With two tracked
posts whose fetched lists both contain the comment id `c1`, and `c1` not
in the persisted processed set at cycle start, the run issues TWO
`likeComment` and TWO `replyToComment` calls for `c1`, not exactly one:
the in-memory snapshot is not updated within a cycle. -/
theorem C1_counterexample :
    "c1" ∉ load_processed_comments exFSDup ∧
    likeCount (monitor_run "t" [exOracleDup] exFSDup).2 "c1" = 2 ∧
    replyCount (monitor_run "t" [exOracleDup] exFSDup).2 "c1" = 2 := by
  decide

/-- Claim C1, amended.  For a well-formed comment id (nonempty, fixed by
stripping) that is absent from the persisted processed set at the start
of a run, if all fetched comment ids are fixed by stripping and the id
occurs at most once among all comments fetched within each single cycle,
then across all cycles exactly one `likeComment` and one
`replyToComment` call are issued for it (provided it appears in at least
one cycle's fetches, possibly reappearing in later cycles); and once the
id is in the processed set it is never engaged again. -/
theorem C1_amended_engagement (now : String) (ocs : List CycleOracle) (fs : FileState)
    (cid : String) (hwf : pyStrip cid = cid) (hne : cid ≠ "")
    (hids : ∀ oc ∈ ocs, ∀ pid ∈ load_posted_posts fs, ∀ c ∈ fetched_comments oc pid,
      pyStrip c.id = c.id)
    (honce : ∀ oc ∈ ocs, cycleOccurrences oc (load_posted_posts fs) cid ≤ 1) :
    (cid ∉ load_processed_comments fs →
      (∃ oc ∈ ocs, 0 < cycleOccurrences oc (load_posted_posts fs) cid) →
      likeCount (monitor_run now ocs fs).2 cid = 1
        ∧ replyCount (monitor_run now ocs fs).2 cid = 1) ∧
    (cid ∈ load_processed_comments fs →
      likeCount (monitor_run now ocs fs).2 cid = 0
        ∧ replyCount (monitor_run now ocs fs).2 cid = 0) := by
  have hlike := countP_monitor_run _ cid (countsOne_like cid) now ocs fs hwf hne hids honce
  have hreply := countP_monitor_run _ cid (countsOne_reply cid) now ocs fs hwf hne hids honce
  constructor
  · intro hnotmem hex
    have hany : (ocs.any fun oc =>
        cycleOccurrences oc (load_posted_posts fs) cid ≠ 0) = true := by
      rw [List.any_eq_true]
      obtain ⟨oc, hoc, hpos⟩ := hex
      exact ⟨oc, hoc, by simp; omega⟩
    constructor
    · rw [likeCount_def, hlike, if_neg hnotmem, hany, if_pos rfl]
    · rw [replyCount_def, hreply, if_neg hnotmem, hany, if_pos rfl]
  · intro hmem
    exact ⟨by rw [likeCount_def, hlike, if_pos hmem],
           by rw [replyCount_def, hreply, if_pos hmem]⟩

/-- Claim C1 witness: two consecutive cycles both fetch the comment `c1`
on post `P1`; it is engaged exactly once over the run. -/
theorem C1_amended_engagement_witness :
    (pyStrip "c1" = "c1" ∧ "c1" ≠ "" ∧
      (∀ oc ∈ [exOracleFail, exOracleFail], ∀ pid ∈ load_posted_posts exFSOne,
        ∀ c ∈ fetched_comments oc pid, pyStrip c.id = c.id) ∧
      (∀ oc ∈ [exOracleFail, exOracleFail],
        cycleOccurrences oc (load_posted_posts exFSOne) "c1" ≤ 1) ∧
      "c1" ∉ load_processed_comments exFSOne ∧
      (∃ oc ∈ [exOracleFail, exOracleFail],
        0 < cycleOccurrences oc (load_posted_posts exFSOne) "c1")) ∧
    likeCount (monitor_run "t" [exOracleFail, exOracleFail] exFSOne).2 "c1" = 1 ∧
    replyCount (monitor_run "t" [exOracleFail, exOracleFail] exFSOne).2 "c1" = 1 := by
  refine ⟨⟨by decide, by decide, by decide, by decide, by decide, by decide⟩, ?_⟩
  exact (C1_amended_engagement "t" [exOracleFail, exOracleFail] exFSOne "c1"
    (by decide) (by decide) (by decide) (by decide)).1 (by decide) (by decide)

/-- Claim C2: an unprocessed comment fetched during a cycle is appended to
the processed-comment file by that cycle, for EVERY oracle — in
particular whatever the outcomes of the like and reply requests — and
the resulting processed file does not depend on those outcomes at all. -/
theorem C2_marking_unconditional (oc : CycleOracle) (now : String) (fs : FileState)
    (pid : String) (c : Comment) (hpid : pid ∈ load_posted_posts fs)
    (hc : c ∈ fetched_comments oc pid) (hnew : c.id ∉ load_processed_comments fs) :
    c.id ∈ (monitor_cycle oc now fs).1.processedFile ∧
    ∀ oc' : CycleOracle, oc'.insights = oc.insights → oc'.commentsResp = oc.commentsResp →
      (monitor_cycle oc' now fs).1.processedFile
        = (monitor_cycle oc now fs).1.processedFile := by
  constructor
  · rw [processedFile_monitor_cycle]
    refine List.mem_append.2 (Or.inr ?_)
    refine (mem_cycleEngagedIds_iff oc _ _ c.id).2 ⟨pid, hpid, ?_⟩
    exact (mem_engagedIds_iff _ _ c.id).2 ⟨⟨c, hc, rfl⟩, hnew⟩
  · intro oc' hins hcomm
    rw [processedFile_monitor_cycle, processedFile_monitor_cycle]
    have hfetch : ∀ pid', fetched_comments oc' pid' = fetched_comments oc pid' := by
      intro pid'; simp [fetched_comments, hcomm]
    simp [cycleEngagedIds, hfetch]

/-- Claim C2 witness: on a cycle whose like request returns HTTP 400 and
whose reply request raises, the comment is still marked processed. -/
theorem C2_marking_unconditional_witness :
    ("P1" ∈ load_posted_posts exFSOne ∧ exComment ∈ fetched_comments exOracleFail "P1" ∧
      exComment.id ∉ load_processed_comments exFSOne) ∧
    exComment.id ∈ (monitor_cycle exOracleFail "t" exFSOne).1.processedFile := by
  refine ⟨⟨by decide, by decide, by decide⟩, ?_⟩
  exact (C2_marking_unconditional exOracleFail "t" exFSOne "P1" exComment
    (by decide) (by decide) (by decide)).1

/-- Claim C10: the in-memory `processed_ids` snapshot is not refreshed
within a cycle, so an unprocessed comment id occurring at least twice
among the comments fetched in one cycle is liked and replied to at least
twice in that cycle. -/
theorem C10_intra_cycle_duplicate (oc : CycleOracle) (now : String) (fs : FileState)
    (cid : String) (hnew : cid ∉ load_processed_comments fs)
    (hocc : 2 ≤ cycleOccurrences oc (load_posted_posts fs) cid) :
    2 ≤ likeCount (monitor_cycle oc now fs).2 cid ∧
    2 ≤ replyCount (monitor_cycle oc now fs).2 cid := by
  have hlike := countP_monitor_cycle _ cid (countsOne_like cid) oc now fs
  have hreply := countP_monitor_cycle _ cid (countsOne_reply cid) oc now fs
  rw [if_neg hnew] at hlike hreply
  exact ⟨by rw [likeCount_def, hlike]; exact hocc,
         by rw [replyCount_def, hreply]; exact hocc⟩

/-- Claim C10 witness: the id `c1` appears under both tracked posts in one
cycle and is engaged twice. -/
theorem C10_intra_cycle_duplicate_witness :
    ("c1" ∉ load_processed_comments exFSDup ∧
      2 ≤ cycleOccurrences exOracleDup (load_posted_posts exFSDup) "c1") ∧
    2 ≤ likeCount (monitor_cycle exOracleDup "t" exFSDup).2 "c1" ∧
    2 ≤ replyCount (monitor_cycle exOracleDup "t" exFSDup).2 "c1" := by
  refine ⟨⟨by decide, by decide⟩, ?_⟩
  exact C10_intra_cycle_duplicate exOracleDup "t" exFSDup "c1" (by decide) (by decide)

theorem load_processed_comments_nodup (fs : FileState) :
    (load_processed_comments fs).Nodup :=
  List.nodup_dedup _

theorem mem_load_processed_save (cid : String) (hwf : pyStrip cid = cid) (hne : cid ≠ "")
    (fs : FileState) : cid ∈ load_processed_comments (save_processed_comment cid fs) := by
  rw [mem_load_processed_iff]
  refine ⟨?_, hne⟩
  simp [save_processed_comment, hwf]

/-- Claim C3: appending the same comment id to the processed file twice
leaves the loaded processed set (a set of stripped nonempty lines)
containing the id exactly once, and membership holds after either
call. -/
theorem C3_mark_idempotent (cid : String) (fs : FileState)
    (hwf : pyStrip cid = cid) (hne : cid ≠ "") :
    (load_processed_comments
        (save_processed_comment cid (save_processed_comment cid fs))).count cid = 1 ∧
    cid ∈ load_processed_comments (save_processed_comment cid fs) ∧
    cid ∈ load_processed_comments
        (save_processed_comment cid (save_processed_comment cid fs)) := by
  have h1 := mem_load_processed_save cid hwf hne fs
  have h2 := mem_load_processed_save cid hwf hne (save_processed_comment cid fs)
  exact ⟨List.count_eq_one_of_mem (load_processed_comments_nodup _) h2, h1, h2⟩

/-- Claim C3 witness at the fresh state and id `c1`. -/
theorem C3_mark_idempotent_witness :
    (pyStrip "c1" = "c1" ∧ "c1" ≠ "") ∧
    (load_processed_comments
        (save_processed_comment "c1" (save_processed_comment "c1" emptyFS))).count "c1" = 1 ∧
    "c1" ∈ load_processed_comments (save_processed_comment "c1" emptyFS) ∧
    "c1" ∈ load_processed_comments
        (save_processed_comment "c1" (save_processed_comment "c1" emptyFS)) :=
  ⟨⟨by decide, by decide⟩, C3_mark_idempotent "c1" emptyFS (by decide) (by decide)⟩

theorem upsertStats_not_found (pid : String) (l c s : Nat) (content : Option String)
    (now : String) (rows : List StatsRow) (h : ∀ r ∈ rows, r.post_id ≠ pid) :
    upsertStats rows pid l c s content now = rows ++ [newRow pid l c s content now] := by
  induction rows with
  | nil => simp [upsertStats]
  | cons r rs ih =>
      have hr : r.post_id ≠ pid := h r (List.mem_cons_self r rs)
      simp only [upsertStats, if_neg hr]
      rw [ih fun a ha => h a (List.mem_cons_of_mem r ha)]
      simp

theorem upsertStats_found (pid : String) (l c s : Nat) (content : Option String)
    (now : String) (pre : List StatsRow) (r : StatsRow) (post : List StatsRow)
    (hpre : ∀ a ∈ pre, a.post_id ≠ pid) (hr : r.post_id = pid) :
    upsertStats (pre ++ r :: post) pid l c s content now
      = pre ++ updateRow r l c s now :: post := by
  induction pre with
  | nil => simp [upsertStats, hr]
  | cons a rest ih =>
      have ha : a.post_id ≠ pid := hpre a (List.mem_cons_self a rest)
      simp only [List.cons_append, upsertStats, if_neg ha, List.append_eq]
      rw [ih fun b hb => hpre b (List.mem_cons_of_mem a hb)]

/-- Claim C4: when no row carries the post id, `update_post_stats` appends
a fresh row whose content cell is filled only for a truthy (present and
nonempty) `content`; when a row exists, the first such row keeps its
content but gets the new counters and timestamp. -/
theorem C4_upsert_merge (pid : String) (l c s : Nat) (content : Option String)
    (now : String) (fs : FileState) :
    ((∀ r ∈ fs.stats, r.post_id ≠ pid) →
      (update_post_stats pid l c s content now fs).stats
        = fs.stats ++ [{ post_id := pid,
                         content := if optTruthy content then content else none,
                         likes := l, comments := c, shares := s, last_update := now }]) ∧
    (∀ (pre : List StatsRow) (r : StatsRow) (post : List StatsRow),
      fs.stats = pre ++ r :: post → (∀ a ∈ pre, a.post_id ≠ pid) → r.post_id = pid →
      (update_post_stats pid l c s content now fs).stats
        = pre ++ { r with likes := l, comments := c, shares := s,
                          last_update := now } :: post) := by
  constructor
  · intro h
    show upsertStats fs.stats pid l c s content now = _
    rw [upsertStats_not_found pid l c s content now fs.stats h]
    rfl
  · intro pre r post hsplit hpre hr
    show upsertStats fs.stats pid l c s content now = _
    rw [hsplit, upsertStats_found pid l c s content now pre r post hpre hr]
    rfl

/-- Claim C4 witness: creating `P1` without content yields a null content
cell; a later update with `content="ignored"` keeps the stored content
`"hello"` and overwrites the counters and timestamp. -/
theorem C4_upsert_merge_witness :
    (update_post_stats "P1" 5 2 1 none "t1" emptyFS).stats
      = [⟨"P1", none, 5, 2, 1, "t1"⟩] ∧
    (update_post_stats "P1" 6 2 1 (some "ignored") "t2"
        ⟨[], [], [⟨"P1", some "hello", 5, 2, 1, "t1"⟩], []⟩).stats
      = [⟨"P1", some "hello", 6, 2, 1, "t2"⟩] := by
  constructor
  · have h := (C4_upsert_merge "P1" 5 2 1 none "t1" emptyFS).1 (by decide)
    simpa using h
  · have h := (C4_upsert_merge "P1" 6 2 1 (some "ignored") "t2"
        ⟨[], [], [⟨"P1", some "hello", 5, 2, 1, "t1"⟩], []⟩).2
        [] ⟨"P1", some "hello", 5, 2, 1, "t1"⟩ [] rfl (by simp) rfl
    simpa using h

/-- Claim C5: with credentials present, a rejected or failed publish
returns the error text and leaves the posted-post file, the statistics
sheet and the processed file unchanged; only a 200 response registers
the post and seeds its statistics row with the message as content. -/
theorem C5_publish_failure_no_mutation (cfg : Config)
    (htok : optTruthy cfg.token = true) (hpage : optTruthy cfg.pageId = true)
    (message now : String) (fs : FileState) :
    (∀ (code : Nat) (text : String),
      (post_to_facebook cfg (.httpError code text) message now fs).1
          = "Ошибка постинга: " ++ toString code ++ " " ++ text ∧
      (post_to_facebook cfg (.httpError code text) message now fs).2.2.postedFile
          = fs.postedFile ∧
      (post_to_facebook cfg (.httpError code text) message now fs).2.2.stats = fs.stats ∧
      (post_to_facebook cfg (.httpError code text) message now fs).2.2.processedFile
          = fs.processedFile) ∧
    (∀ e : String,
      (post_to_facebook cfg (.exn e) message now fs).1 = "Исключение: " ++ e ∧
      (post_to_facebook cfg (.exn e) message now fs).2.2.postedFile = fs.postedFile ∧
      (post_to_facebook cfg (.exn e) message now fs).2.2.stats = fs.stats ∧
      (post_to_facebook cfg (.exn e) message now fs).2.2.processedFile
          = fs.processedFile) ∧
    (∀ new_post_id : String,
      post_to_facebook cfg (.ok new_post_id) message now fs
        = (new_post_id,
           ["https://graph.facebook.com/" ++ cfg.pageId.getD "" ++ "/feed"],
           update_post_stats new_post_id 0 0 0 (some message) now
             (save_posted_post new_post_id
               (log_action "post_to_facebook"
                 ("Пост опубликован! ID: " ++ new_post_id) fs)))) := by
  have hcond : (!optTruthy cfg.token || !optTruthy cfg.pageId) = false := by
    rw [htok, hpage]; rfl
  refine ⟨fun code text => ?_, fun e => ?_, fun new_post_id => ?_⟩ <;>
    simp [post_to_facebook, hcond]

/-- Claim C5 witness at a concrete configuration, rejection and success. -/
theorem C5_publish_failure_no_mutation_witness :
    (optTruthy (some "tok") = true ∧ optTruthy (some "PAGE") = true) ∧
    (post_to_facebook ⟨some "tok", some "PAGE"⟩ (.httpError 500 "Server Error")
        "hello" "t" exFSOne).1 = "Ошибка постинга: 500 Server Error" ∧
    (post_to_facebook ⟨some "tok", some "PAGE"⟩ (.httpError 500 "Server Error")
        "hello" "t" exFSOne).2.2.postedFile = exFSOne.postedFile ∧
    (post_to_facebook ⟨some "tok", some "PAGE"⟩ (.httpError 500 "Server Error")
        "hello" "t" exFSOne).2.2.stats = exFSOne.stats := by
  have h := (C5_publish_failure_no_mutation ⟨some "tok", some "PAGE"⟩
    (by decide) (by decide) "hello" "t" exFSOne).1 500 "Server Error"
  exact ⟨⟨by decide, by decide⟩, by simpa using h.1, h.2.1, h.2.2.1⟩

/-- Claim C6: the three sub-queries of `get_post_insights` are independent:
the returned triple is the per-sub-query value (count on success, 0 on
failure) in each component; in particular a failing shares sub-query
with succeeding likes and comments yields `(likes, comments, 0)` — and,
the embedding being total, no exception escapes. -/
theorem C6_partial_failure_isolation (cfg : Config) (htok : optTruthy cfg.token = true)
    (r_likes r_comments r_shares : HttpResult (Option Nat)) (post_id : String)
    (fs : FileState) :
    (get_post_insights cfg r_likes r_comments r_shares post_id fs).1
      = (sub_query_value r_likes, sub_query_value r_comments, sub_query_value r_shares) ∧
    (∀ (l c code : Nat) (text e : String),
      (get_post_insights cfg (.ok (some l)) (.ok (some c)) (.httpError code text)
          post_id fs).1 = (l, c, 0) ∧
      (get_post_insights cfg (.ok (some l)) (.ok (some c)) (.exn e) post_id fs).1
          = (l, c, 0)) := by
  have hcond : (!optTruthy cfg.token) = false := by rw [htok]; rfl
  constructor
  · cases r_likes <;> cases r_comments <;> cases r_shares <;>
      simp [get_post_insights, hcond, sub_query_value]
  · intro l c code text e
    exact ⟨by simp [get_post_insights, hcond, sub_query_value],
           by simp [get_post_insights, hcond, sub_query_value]⟩

/-- Claim C6 witness: likes=7, comments=3, shares sub-query rejected with
HTTP 500 — the call returns `(7, 3, 0)`. -/
theorem C6_partial_failure_isolation_witness :
    optTruthy (some "tok") = true ∧
    (get_post_insights ⟨some "tok", some "PAGE"⟩ (.ok (some 7)) (.ok (some 3))
        (.httpError 500 "err") "P1" emptyFS).1 = (7, 3, 0) :=
  ⟨by decide,
    ((C6_partial_failure_isolation ⟨some "tok", some "PAGE"⟩ (by decide)
      (.ok (some 7)) (.ok (some 3)) (.httpError 500 "err") "P1" emptyFS).2
      7 3 500 "err" "e").1⟩

/-- Claim C7: `save_posted_post` is idempotent: on a state whose loaded
posted list holds a well-formed post id at most once, saving it twice
leaves the loaded list containing it exactly once, and a save of an
already-present id is a no-op. -/
theorem C7_addPost_idempotent (pid : String) (fs : FileState)
    (hwf : pyStrip pid = pid) (hne : pid ≠ "")
    (hcount : (load_posted_posts fs).count pid ≤ 1) :
    (load_posted_posts (save_posted_post pid (save_posted_post pid fs))).count pid = 1 ∧
    (pid ∈ load_posted_posts fs → save_posted_post pid fs = fs) := by
  have hnoop : ∀ fs' : FileState, pid ∈ load_posted_posts fs' →
      save_posted_post pid fs' = fs' := by
    intro fs' h; rw [save_posted_post, if_pos h]
  constructor
  · by_cases h : pid ∈ load_posted_posts fs
    · rw [hnoop fs h, hnoop fs h]
      have := List.count_pos_iff.2 h
      omega
    · have happ : save_posted_post pid fs
          = { fs with postedFile := fs.postedFile ++ [pid] } := by
        rw [save_posted_post, if_neg h]
      have hload : load_posted_posts (save_posted_post pid fs)
          = load_posted_posts fs ++ [pid] := by
        rw [happ]
        simp [load_posted_posts, hwf, hne]
      have hmem1 : pid ∈ load_posted_posts (save_posted_post pid fs) := by
        rw [hload]; simp
      rw [hnoop _ hmem1, hload, List.count_append]
      have h0 : (load_posted_posts fs).count pid = 0 := List.count_eq_zero.2 h
      simp [h0]
  · exact hnoop fs

/-- Claim C7 witness at the fresh state and id `P1`. -/
theorem C7_addPost_idempotent_witness :
    (pyStrip "P1" = "P1" ∧ "P1" ≠ "" ∧ (load_posted_posts emptyFS).count "P1" ≤ 1) ∧
    (load_posted_posts (save_posted_post "P1" (save_posted_post "P1" emptyFS))).count "P1"
      = 1 :=
  ⟨⟨by decide, by decide, by decide⟩,
    (C7_addPost_idempotent "P1" emptyFS (by decide) (by decide) (by decide)).1⟩

/-- Claim C8, counterexample to the claim as stated.  With the token
absent, `get_post_insights` does NOT produce a descriptive error: it
returns plain zero counters, issues no request, and leaves the state —
including the action log — completely untouched, indistinguishable from
a successful fetch of zero counts. -/
theorem C8_counterexample :
    get_post_insights ⟨none, some "PAGE"⟩ (.httpError 400 "err1") (.httpError 400 "err2")
        (.httpError 400 "err3") "P1" emptyFS
      = ((0, 0, 0), [], emptyFS) := by
  decide

/-- Claim C8, amended.  With the token absent, `post_to_facebook` fails
fast: it returns the descriptive error string without issuing a network
request and mutates nothing but the log; `get_post_insights` also fails
fast without issuing a network request, but silently returns `(0,0,0)`
with no descriptive error recorded anywhere. -/
theorem C8_amended_fail_fast (cfg : Config) (htok : optTruthy cfg.token = false) :
    (∀ (resp : HttpResult String) (message now : String) (fs : FileState),
      post_to_facebook cfg resp message now fs
        = ("Нет токена или ID страницы!", [],
           log_action "post_to_facebook" "Нет токена или ID страницы!" fs)) ∧
    (∀ (r1 r2 r3 : HttpResult (Option Nat)) (post_id : String) (fs : FileState),
      get_post_insights cfg r1 r2 r3 post_id fs = ((0, 0, 0), [], fs)) := by
  have hcond : (!optTruthy cfg.token || !optTruthy cfg.pageId) = true := by
    rw [htok]; rfl
  have hcond2 : (!optTruthy cfg.token) = true := by rw [htok]; rfl
  exact ⟨fun resp message now fs => by simp [post_to_facebook, hcond],
         fun r1 r2 r3 post_id fs => by simp [get_post_insights, hcond2]⟩

/-- Claim C8 witness: a missing token short-circuits both gateway calls. -/
theorem C8_amended_fail_fast_witness :
    optTruthy (Config.token ⟨none, some "PAGE"⟩) = false ∧
    post_to_facebook ⟨none, some "PAGE"⟩ (.ok "123_456") "hello" "t" emptyFS
      = ("Нет токена или ID страницы!", [],
         log_action "post_to_facebook" "Нет токена или ID страницы!" emptyFS) ∧
    get_post_insights ⟨none, some "PAGE"⟩ (.ok (some 5)) (.ok (some 2)) (.ok (some 1))
        "P1" emptyFS = ((0, 0, 0), [], emptyFS) := by
  refine ⟨by decide, ?_, ?_⟩
  · exact (C8_amended_fail_fast ⟨none, some "PAGE"⟩ (by decide)).1
      (.ok "123_456") "hello" "t" emptyFS
  · exact (C8_amended_fail_fast ⟨none, some "PAGE"⟩ (by decide)).2
      (.ok (some 5)) (.ok (some 2)) (.ok (some 1)) "P1" emptyFS

/-- Claim C9: the console judges success by `"_" in result or
result.isdigit()`; a rejected publish whose error text contains an
underscore is therefore shown as a published post even though the
publish failed and mutated no store; genuine Facebook ids (with an
underscore, or all digits) are classified as success. -/
theorem C9_console_misclassification :
    console_success (post_to_facebook ⟨some "tok", some "PAGE"⟩
        (.httpError 400 "error_subcode 33") "hello" "t" emptyFS).1 = true ∧
    (post_to_facebook ⟨some "tok", some "PAGE"⟩
        (.httpError 400 "error_subcode 33") "hello" "t" emptyFS).2.2.postedFile = [] ∧
    (post_to_facebook ⟨some "tok", some "PAGE"⟩
        (.httpError 400 "error_subcode 33") "hello" "t" emptyFS).2.2.stats = [] ∧
    console_success "123456789_987654321" = true ∧
    console_success "12345" = true ∧
    console_success "Нет токена или ID страницы!" = false := by
  decide

end FacebookSMM

